import Mathlib

/-!
Verification development for the MMM-ShareToMirror backend
(`node_helper.js` and its historical copies).

The JavaScript source is shallowly embedded: pure helpers become Lean
functions, the Express route handlers become functions from the relevant
request-body data and the server state to (new state, emitted socket
notification, HTTP response), and the process-wide mutable `this.state`
record becomes explicit state passing.  JS `null`/`undefined` are
modelled with `Option`, JS numbers that the claims exercise are
integers, and strings are Lean `String`/`List Char`.
-/

set_option maxRecDepth 20000

namespace STM

/-! ## Character utilities

`node_helper.js` line 30-35 uses the character class `[a-zA-Z0-9_-]`
and the case-insensitive flag `/i`; we model ASCII characters through
their code points. -/

/-- The character class `[a-zA-Z0-9_-]` of the video-id regexes
(`node_helper.js` lines 30-35 and 43). -/
def isIdChar (c : Char) : Bool :=
  (97 ≤ c.toNat && c.toNat ≤ 122) ||
  (65 ≤ c.toNat && c.toNat ≤ 90) ||
  (48 ≤ c.toNat && c.toNat ≤ 57) ||
  c.toNat = 95 ||
  c.toNat = 45

/-- ASCII lower-casing on code points, used to model the `/i` regex flag. -/
def toLowerN (n : Nat) : Nat :=
  if 65 ≤ n && n ≤ 90 then n + 32 else n

/-- Case-insensitive character comparison (the `/i` flag of the URL
patterns, `node_helper.js` lines 30-35; the patterns are ASCII). -/
def ciEq (a b : Char) : Bool :=
  toLowerN a.toNat == toLowerN b.toNat

/-- Whitespace characters removed by `String.prototype.trim`
(`node_helper.js` line 26); restricted to the common ASCII whitespace. -/
def isSpaceChar (c : Char) : Bool :=
  c = ' ' || c = '\t' || c = '\n' || c = '\r'

/-- `input.trim()` from `node_helper.js` line 26. -/
def jsTrim (s : List Char) : List Char :=
  ((s.dropWhile isSpaceChar).reverse.dropWhile isSpaceChar).reverse

/-! ## The URL patterns of `parseYouTubeId`

Each pattern `/(?:MARKER)([a-zA-Z0-9_-]{11})/i` is a regex search: the
leftmost position where the literal marker occurs (case-insensitively)
followed by exactly eleven class characters wins, and the capture is
those eleven characters. -/

/-- Strip a case-insensitive literal marker from the front of `s`,
returning the remainder on success. -/
def stripMarkerCI : List Char → List Char → Option (List Char)
  | [], s => some s
  | _ :: _, [] => none
  | m :: ms, c :: cs => if ciEq m c then stripMarkerCI ms cs else none

/-- The capture group `([a-zA-Z0-9_-]{11})`: the next eleven characters,
required to all lie in the class. -/
def takeId11 (s : List Char) : Option (List Char) :=
  let t := s.take 11
  if t.length = 11 && t.all isIdChar then some t else none

/-- Regex search for `MARKER([a-zA-Z0-9_-]{11})`: try every start
position from the left, first success wins. -/
def scanMarker (marker : List Char) : List Char → Option (List Char)
  | [] => none
  | c :: cs =>
    match (stripMarkerCI marker (c :: cs)).bind takeId11 with
    | some v => some v
    | none => scanMarker marker cs

/-- The anchored pattern `^([a-zA-Z0-9_-]{11})$` (direct video ID,
`node_helper.js` line 35). -/
def bareId (s : List Char) : Option (List Char) :=
  if s.length = 11 && s.all isIdChar then some s else none

/-- `marker` provably fails against the window `w` before `w` is
exhausted: a mismatching character is reached while both lists are
non-empty, so no extension of `w` can make the marker match. -/
def mismatchWithin : List Char → List Char → Bool
  | _, [] => false
  | [], _ => false
  | m :: ms, c :: cs => if ciEq m c then mismatchWithin ms cs else true

/-- Every start position inside `s` mismatches the marker before
leaving `s`. -/
def allSuffixMismatch (marker : List Char) : List Char → Bool
  | [] => true
  | c :: cs => mismatchWithin marker (c :: cs) && allSuffixMismatch marker cs

def watchMarker : List Char := "youtube.com/watch?v=".toList

def embedMarker : List Char := "youtube.com/embed/".toList

def vMarker : List Char := "youtube.com/v/".toList

def shortsMarker : List Char := "youtube.com/shorts/".toList

def beMarker : List Char := "youtu.be/".toList

/-- The revalidation at `node_helper.js` line 43: `videoId.length === 11
&& /^[a-zA-Z0-9_-]+$/.test(videoId)`; on failure the JS loop continues
with the next pattern. -/
def checkId (o : Option (List Char)) : Option (List Char) :=
  match o with
  | some v => if v.length = 11 && v.all isIdChar then some v else none
  | none => none

/-- Core of `parseYouTubeId` (`node_helper.js` lines 23-50) on the raw
character list of the input: the empty-input guard, `trim`, then the six
patterns in order, each match revalidated by `checkId`. -/
def parseCore (s : List Char) : Option (List Char) :=
  if s = [] then none
  else
    let t := jsTrim s
    match checkId (scanMarker watchMarker t) with
    | some v => some v
    | none =>
    match checkId (scanMarker embedMarker t) with
    | some v => some v
    | none =>
    match checkId (scanMarker vMarker t) with
    | some v => some v
    | none =>
    match checkId (scanMarker shortsMarker t) with
    | some v => some v
    | none =>
    match checkId (scanMarker beMarker t) with
    | some v => some v
    | none =>
    match checkId (bareId t) with
    | some v => some v
    | none => none

/-- `parseYouTubeId` (`node_helper.js` lines 23-50).  A JS non-string
argument (also rejected at line 24) is outside the `String` type and is
not modelled. -/
def parseYouTubeId (input : String) : Option String :=
  (parseCore input.toList).map fun l => String.mk l

/-! ## Rate limiter (`createRateLimit`, `node_helper.js` lines 57-89)

The closure's `requests` map becomes an association list from client
identifier to window record, and `Date.now()` becomes an explicit
`now : Nat` argument of each step. -/

/-- A per-client window: `{ count, resetTime }` (`node_helper.js`
line 74). -/
structure RLWindow where
  count : Nat
  resetTime : Nat
deriving DecidableEq, Repr

/-- The `requests` map (`node_helper.js` line 58). -/
abbrev RLState := List (String × RLWindow)

/-- Outcome of one request through the limiter middleware: `next()` was
called, or a 429 with `retryAfter` was sent (`node_helper.js`
lines 78-87). -/
inductive RLResult where
  | allow
  | reject (retryAfterSeconds : Nat)
deriving DecidableEq, Repr

/-- `Math.ceil(x / 1000)` for a non-negative integer `x`
(`node_helper.js` line 82). -/
def ceilDiv1000 (x : Nat) : Nat :=
  (x + 999) / 1000

/-- `requests.get(clientId)` (`node_helper.js` line 72). -/
def rlLookup : RLState → String → Option RLWindow
  | [], _ => none
  | e :: es, id => if e.1 = id then some e.2 else rlLookup es id

/-- `requests.set(clientId, data)` together with the later in-place
mutation of the stored record (`node_helper.js` lines 75 and 86). -/
def rlSet : RLState → String → RLWindow → RLState
  | [], id, w => [(id, w)]
  | e :: es, id, w => if e.1 = id then (id, w) :: es else e :: rlSet es id w

/-- The clean-up loop removing entries older than the window
(`node_helper.js` lines 65-69). -/
def rlCleanup (windowMs now : Nat) (st : RLState) : RLState :=
  st.filter fun e => !(now - e.2.resetTime > windowMs)

/-- One request through the middleware returned by
`createRateLimit(windowMs, max)` (`node_helper.js` lines 60-88):
clean-up, then fresh-or-existing window selection, then the count
check; allowed requests increment the stored count, rejected requests
answer 429 with `Math.ceil((windowMs - (now - resetTime)) / 1000)`. -/
def rateLimitStep (windowMs max : Nat) (st : RLState) (id : String) (now : Nat) :
    RLState × RLResult :=
  let st1 := rlCleanup windowMs now st
  let d :=
    match rlLookup st1 id with
    | some d => if now - d.resetTime > windowMs then RLWindow.mk 0 now else d
    | none => RLWindow.mk 0 now
  if d.count ≥ max then
    (rlSet st1 id d, RLResult.reject (ceilDiv1000 (windowMs - (now - d.resetTime))))
  else
    (rlSet st1 id (RLWindow.mk (d.count + 1) d.resetTime), RLResult.allow)

/-- Run a request trace `(clientId, now)` from an empty map, collecting
each request's outcome. -/
def rateLimitRun (windowMs max : Nat) (reqs : List (String × Nat)) :
    RLState × List RLResult :=
  reqs.foldl
    (fun acc r =>
      let step := rateLimitStep windowMs max acc.1 r.1 r.2
      (step.1, acc.2 ++ [step.2]))
    ([], [])

/-! ## ISO-8601 duration parsing (`parseISO8601Duration`,
`node_helper.js` lines 731-742)

The regex `PT(?:(\d+)H)?(?:(\d+)M)?(?:(\d+)S)?` is a search for the
leftmost occurrence of the literal `PT`, after which each optional
group consumes a maximal digit run only when it is immediately
followed by its unit letter. -/

def isDigitChar (c : Char) : Bool :=
  48 ≤ c.toNat && c.toNat ≤ 57

/-- Numeric value of a digit run (`parseInt` on a capture of `\d+`). -/
def digitsVal (ds : List Char) : Nat :=
  ds.foldl (fun acc c => acc * 10 + (c.toNat - 48)) 0

/-- One optional component `(?:(\d+)X)?`: a non-empty maximal digit run
immediately followed by the unit character `u` is consumed; otherwise
nothing is consumed and the component is absent. -/
def matchComp (u : Char) (s : List Char) : Option Nat × List Char :=
  let ds := s.takeWhile isDigitChar
  let rest := s.dropWhile isDigitChar
  match ds, rest with
  | [], _ => (none, s)
  | _ :: _, r :: rs => if r = u then (some (digitsVal ds), rs) else (none, s)
  | _ :: _, [] => (none, s)

/-- Leftmost occurrence of the literal `PT`; returns the remainder. -/
def findPT : List Char → Option (List Char)
  | [] => none
  | 'P' :: 'T' :: rest => some rest
  | _ :: rest => findPT rest

/-- `parseISO8601Duration` (`node_helper.js` lines 731-742): falsy input
gives `null`; a string without `PT` gives `null` (regex match failure);
otherwise hours, minutes and seconds parsed after the first `PT`, each
`parseInt(...) || 0`, combined into total seconds. -/
def parseISO8601Duration (duration : String) : Option Nat :=
  if duration = "" then none
  else
    match findPT duration.toList with
    | none => none
    | some rest =>
      let h := matchComp 'H' rest
      let m := matchComp 'M' h.2
      let s := matchComp 'S' m.2
      some ((h.1.getD 0) * 3600 + (m.1.getD 0) * 60 + (s.1.getD 0))

/-! ## Metadata resolver (`fetchYouTubeVideoInfo`, `node_helper.js`
lines 391-412, and `createFallbackVideoInfo`, lines 708-725)

The three network sources (oEmbed, Data API, scraping) perform I/O; for
the resolve composition they matter only through their outcome, so a
source is embedded as an `Except`: `error` for a thrown/rejected
attempt, `ok none` for a resolved falsy value, `ok (some r)` for a
resolved record `r`. -/

/-- The video-information record produced by every source and by the
fallback (field set of `createFallbackVideoInfo`, `node_helper.js`
lines 709-724). -/
structure VideoInfo where
  title : String
  channel : String
  thumbnail : String
  url : String
  description : String
  duration : Option Nat
  views : Option Int
  likes : Option Int
  publishedAt : Option String
  category : Option String
  tags : List String
  quality : String
  language : String
  captions : List String
deriving DecidableEq, Repr

/-- Outcome of one metadata source attempt. -/
abbrev MethodOutcome := Except String (Option VideoInfo)

/-- `createFallbackVideoInfo` (`node_helper.js` lines 708-725). -/
def createFallbackVideoInfo (videoId : String) : VideoInfo where
  title := "YouTube Video"
  channel := "YouTube"
  thumbnail := "https://img.youtube.com/vi/" ++ videoId ++ "/mqdefault.jpg"
  url := "https://www.youtube.com/watch?v=" ++ videoId
  description := "Video information could not be loaded"
  duration := none
  views := none
  likes := none
  publishedAt := none
  category := none
  tags := []
  quality := "Auto"
  language := "en"
  captions := []

/-- `fetchYouTubeVideoInfo` (`node_helper.js` lines 391-412): try the
sources in order; the first resolved record with a truthy (non-empty)
`title` is returned, a thrown error or a titleless result advances to
the next source, and exhaustion returns the synthetic fallback.  The JS
function never throws: every source error is caught at lines 405-407. -/
def fetchYouTubeVideoInfo : List MethodOutcome → String → VideoInfo
  | [], videoId => createFallbackVideoInfo videoId
  | m :: rest, videoId =>
    match m with
    | Except.ok (some r) =>
      if r.title = "" then fetchYouTubeVideoInfo rest videoId else r
    | _ => fetchYouTubeVideoInfo rest videoId

/-- A source attempt that does not deliver a usable record: it threw,
resolved falsy, or resolved a record with an empty title. -/
def methodFailed : MethodOutcome → Bool
  | Except.ok (some r) => r.title == ""
  | Except.ok none => true
  | Except.error _ => true

/-! ## Playback state and the API handlers

`this.state` (`node_helper.js` lines 96-102) and the Express handlers
of `setupRoutes` (lines 242-384).  Each handler becomes a function of
the current state and the decoded request body, returning the new
state, the socket notification sent (if any) and the JSON response. -/

/-- `state.caption` (`node_helper.js` line 100). -/
structure CaptionState where
  enabled : Bool
  lang : String
deriving DecidableEq, Repr

/-- `state.quality` (`node_helper.js` line 101). -/
structure QualityState where
  target : String
  floor : Option String
  ceiling : Option String
  lock : Bool
deriving DecidableEq, Repr

/-- `this.state` (`node_helper.js` lines 96-102). -/
structure PlayState where
  playing : Bool
  lastUrl : Option String
  lastVideoId : Option String
  caption : CaptionState
  quality : QualityState
deriving DecidableEq, Repr

/-- The initial state set in `start()` (`node_helper.js` lines 96-102). -/
def initState : PlayState where
  playing := false
  lastUrl := none
  lastVideoId := none
  caption := CaptionState.mk false "en"
  quality := QualityState.mk "auto" none none false

/-- `playVideo(videoId, url)` (`node_helper.js` lines 744-751) without
the socket emission, which the callers record separately. -/
def playVideo (st : PlayState) (videoId : String) (url : Option String) : PlayState :=
  { st with playing := true, lastUrl := url, lastVideoId := some videoId }

/-- Response of `POST /api/play` (`node_helper.js` lines 262-271). -/
structure PlayResp where
  status : Nat
  ok : Bool
  mode : Option String
  videoId : Option String
  error : Option String
deriving DecidableEq, Repr

/-- Result of the `/api/play` handler: new state, the
`STM_PLAY_EMBED {videoId, url}` notification if sent, and the JSON
response. -/
structure PlayOutcome where
  state : PlayState
  emit : Option (String × Option String)
  resp : PlayResp
deriving DecidableEq, Repr

/-- The `POST /api/play` handler (`node_helper.js` lines 262-271):
parse `req.body?.url`; on failure answer 400 without touching state;
on success call `playVideo` and answer
`{ok:true, mode:"embedded", videoId}`. -/
def apiPlayHandler (st : PlayState) (url : Option String) : PlayOutcome :=
  match url.bind parseYouTubeId with
  | none =>
    PlayOutcome.mk st none (PlayResp.mk 400 false none none (some "Invalid YouTube URL"))
  | some videoId =>
    PlayOutcome.mk (playVideo st videoId url) (some (videoId, url))
      (PlayResp.mk 200 true (some "embedded") (some videoId) none)

/-- Response of `POST /api/stop` (`node_helper.js` line 276). -/
structure StopResp where
  status : Nat
  ok : Bool
  message : String
deriving DecidableEq, Repr

/-- Result of the `/api/stop` handler: new state, the reason of the
`STM_STOP_EMBED` notification, and the response. -/
structure StopOutcome where
  state : PlayState
  emitReason : String
  resp : StopResp
deriving DecidableEq, Repr

/-- The `POST /api/stop` handler (`node_helper.js` lines 273-277):
`state.playing = false`, emit `STM_STOP_EMBED {reason:"api"}`, answer
`{ok:true, message:"Playback stopped"}`. -/
def apiStopHandler (st : PlayState) : StopOutcome :=
  StopOutcome.mk { st with playing := false } "api"
    (StopResp.mk 200 true "Playback stopped")

/-- Body of `POST /api/control`: `action` is absent or a string
(`none` also covers the falsy empty string handled like absence by
`!action`), `seconds` is absent or a number. -/
structure ControlBody where
  action : Option String
  seconds : Option Int
deriving DecidableEq, Repr

/-- Response of `POST /api/control`. -/
structure ControlResp where
  status : Nat
  ok : Bool
  error : Option String
  action : Option String
  seconds : Option Int
deriving DecidableEq, Repr

/-- Result of a `/api/control` handler: the `STM_VIDEO_CONTROL
{action, seconds}` notification if sent, and the response. -/
structure ControlOutcome where
  emit : Option (String × Option Int)
  resp : ControlResp
deriving DecidableEq, Repr

/-- JS truthiness of the `seconds` number: `!seconds || seconds <= 0`
(`node_helper.js` line 292). -/
def secondsInvalid : Option Int → Bool
  | none => true
  | some n => n ≤ 0

/-- `seconds || null` (`node_helper.js` line 297): a falsy number
becomes `null`. -/
def jsNumOrNull : Option Int → Option Int
  | none => none
  | some n => if n = 0 then none else some n

/-- Membership in `validActions = ["pause","resume","rewind","forward"]`
(`node_helper.js` line 286). -/
def validAction (a : String) : Bool :=
  a == "pause" || a == "resume" || a == "rewind" || a == "forward"

/-- The `POST /api/control` handler of `node_helper.js` (v1.6.0,
lines 279-298): missing action is a 400, an unrecognized action is a
400, and for rewind/forward a falsy or non-positive `seconds` is a 400
— an omitted `seconds` is rejected, there is no default. -/
def apiControlHandler (b : ControlBody) : ControlOutcome :=
  match b.action with
  | none => ControlOutcome.mk none (ControlResp.mk 400 false (some "Action is required") none none)
  | some a =>
    if a = "" then
      ControlOutcome.mk none (ControlResp.mk 400 false (some "Action is required") none none)
    else if !validAction a then
      ControlOutcome.mk none (ControlResp.mk 400 false (some "Invalid action") none none)
    else if (a = "rewind" || a = "forward") && secondsInvalid b.seconds then
      ControlOutcome.mk none
        (ControlResp.mk 400 false (some "Valid seconds parameter required for rewind/forward") none none)
    else
      ControlOutcome.mk (some (a, b.seconds))
        (ControlResp.mk 200 true none (some a) (jsNumOrNull b.seconds))

/-- The `POST /api/control` handler of the v1.7.0 helper
(`src/unnamed/part_001` lines 282-297): for rewind/forward,
`seconds = Number(seconds) || 10` defaults an absent or falsy value to
10, then non-positive values are a 400. -/
def apiControlHandlerV17 (b : ControlBody) : ControlOutcome :=
  match b.action with
  | none => ControlOutcome.mk none (ControlResp.mk 400 false (some "Action is required") none none)
  | some a =>
    if a = "" then
      ControlOutcome.mk none (ControlResp.mk 400 false (some "Action is required") none none)
    else if !validAction a then
      ControlOutcome.mk none (ControlResp.mk 400 false (some "Invalid action") none none)
    else if a = "rewind" || a = "forward" then
      let s : Int :=
        match b.seconds with
        | none => 10
        | some n => if n = 0 then 10 else n
      if s ≤ 0 then
        ControlOutcome.mk none (ControlResp.mk 400 false (some "Seconds must be > 0") none none)
      else
        ControlOutcome.mk (some (a, some s)) (ControlResp.mk 200 true none (some a) (some s))
    else
      ControlOutcome.mk (some (a, b.seconds))
        (ControlResp.mk 200 true none (some a) b.seconds)

/-- A `caption` patch object of `POST /api/options`; `none` fields are
absent properties. -/
structure CaptionPatch where
  enabled : Option Bool
  lang : Option String
deriving DecidableEq, Repr

/-- A `quality` patch object of `POST /api/options`. -/
structure QualityPatch where
  target : Option String
  floor : Option String
  ceiling : Option String
  lock : Option Bool
deriving DecidableEq, Repr

/-- Body of `POST /api/options`: a field is `some` exactly when the JS
value is a truthy object, the case selected by
`req.body.caption && typeof req.body.caption === "object"`
(`node_helper.js` lines 303 and 311); absent, `null` and non-object
values all fall to `none`. -/
structure OptionsBody where
  caption : Option CaptionPatch
  quality : Option QualityPatch
deriving DecidableEq, Repr

/-- `x || d` for a string-or-absent value. -/
def jsStrOr (v : Option String) (d : String) : String :=
  match v with
  | some s => if s = "" then d else s
  | none => d

/-- `x || null` for a string-or-absent value. -/
def jsStrOrNull (v : Option String) : Option String :=
  match v with
  | some s => if s = "" then none else some s
  | none => none

/-- The full caption record built from a patch (`node_helper.js`
lines 304-307): `{enabled: Boolean(...), lang: ... || "en"}`. -/
def buildCaption (p : CaptionPatch) : CaptionState :=
  CaptionState.mk (p.enabled.getD false) (jsStrOr p.lang "en")

/-- The full quality record built from a patch (`node_helper.js`
lines 312-317): every sub-field is rebuilt, absent ones from their
defaults. -/
def buildQuality (p : QualityPatch) : QualityState :=
  QualityState.mk (jsStrOr p.target "auto") (jsStrOrNull p.floor)
    (jsStrOrNull p.ceiling) (p.lock.getD false)

/-- Response of `POST /api/options` (`node_helper.js` line 325). -/
structure OptionsResp where
  status : Nat
  ok : Bool
  state : PlayState
  updated : Bool
deriving DecidableEq, Repr

/-- Result of the `/api/options` handler: new state, the `STM_OPTIONS`
payload (the `updates` object) if sent, and the response. -/
structure OptionsOutcome where
  state : PlayState
  emit : Option (Option CaptionState × Option QualityState)
  resp : OptionsResp
deriving DecidableEq, Repr

/-- The `POST /api/options` handler (`node_helper.js` lines 300-326):
each provided patch object rebuilds the corresponding full sub-record
and `Object.assign`s it over the state (replacing every sub-field);
`STM_OPTIONS` is sent exactly when `updates` is non-empty; the response
is always 200 with the post-update state and `updated`. -/
def apiOptionsHandler (st : PlayState) (b : OptionsBody) : OptionsOutcome :=
  let newCaption :=
    match b.caption with
    | some p => buildCaption p
    | none => st.caption
  let newQuality :=
    match b.quality with
    | some p => buildQuality p
    | none => st.quality
  let st1 := { st with caption := newCaption, quality := newQuality }
  let upd := b.caption.isSome || b.quality.isSome
  let emit :=
    if upd then some (b.caption.map buildCaption, b.quality.map buildQuality) else none
  OptionsOutcome.mk st1 emit (OptionsResp.mk 200 true st1 upd)

/-! ## The playback command relay as a transition system

The operations that touch `this.state`: `/api/play`, `/api/stop`,
`/api/control`, `/api/options`, and the `STM_EMBEDDED_STOPPED` socket
notification (`node_helper.js` lines 118-128). -/

/-- One relay operation with its request data. -/
inductive RelayOp where
  | play (url : Option String)
  | stop
  | control (b : ControlBody)
  | options (b : OptionsBody)
  | embeddedStopped
deriving DecidableEq, Repr

/-- State effect of one relay operation.  `control` never touches the
state; `STM_EMBEDDED_STOPPED` clears `playing`
(`node_helper.js` line 124). -/
def relayStep (st : PlayState) : RelayOp → PlayState
  | RelayOp.play url => (apiPlayHandler st url).state
  | RelayOp.stop => (apiStopHandler st).state
  | RelayOp.control _ => st
  | RelayOp.options b => (apiOptionsHandler st b).state
  | RelayOp.embeddedStopped => { st with playing := false }

/-- State after a sequence of relay operations from the initial state. -/
def relayRun (ops : List RelayOp) : PlayState :=
  ops.foldl relayStep initState

/-! ## Theorems -/

/-- The resolve chain always returns a record with a truthy title. -/
lemma fetchYouTubeVideoInfo_title_ne (ms : List MethodOutcome) (videoId : String) :
    (fetchYouTubeVideoInfo ms videoId).title ≠ "" := by
  induction ms with
  | nil => simp [fetchYouTubeVideoInfo, createFallbackVideoInfo]
  | cons m rest ih =>
    match m with
    | Except.ok (some r) =>
      by_cases h : r.title = ""
      · simpa [fetchYouTubeVideoInfo, h] using ih
      · simp [fetchYouTubeVideoInfo, h]
    | Except.ok none => simpa [fetchYouTubeVideoInfo] using ih
    | Except.error e => simpa [fetchYouTubeVideoInfo] using ih

/-- When every source fails, the chain returns the synthetic fallback. -/
lemma fetchYouTubeVideoInfo_all_failed (ms : List MethodOutcome) (videoId : String)
    (h : ∀ m ∈ ms, methodFailed m = true) :
    fetchYouTubeVideoInfo ms videoId = createFallbackVideoInfo videoId := by
  induction ms with
  | nil => rfl
  | cons m rest ih =>
    have hm : methodFailed m = true := h m (by simp)
    have hrest : ∀ m ∈ rest, methodFailed m = true := fun x hx => h x (by simp [hx])
    match m with
    | Except.ok (some r) =>
      have ht : r.title = "" := by simpa [methodFailed] using hm
      simpa [fetchYouTubeVideoInfo, ht] using ih hrest
    | Except.ok none => simpa [fetchYouTubeVideoInfo] using ih hrest
    | Except.error e => simpa [fetchYouTubeVideoInfo] using ih hrest

/-- C1: for every syntactically valid 11-character video ID, the
metadata resolve operation never throws (it is a total function of the
source outcomes) and always returns a record with a non-empty title;
when every source fails or times out it returns the synthetic fallback
record with title "YouTube Video", the generated `mqdefault` thumbnail
URL, and null/empty optional fields. -/
theorem fetchYouTubeVideoInfo_never_fails (ms : List MethodOutcome) (videoId : String)
    (_hid : videoId.toList.length = 11 ∧ videoId.toList.all isIdChar = true) :
    (fetchYouTubeVideoInfo ms videoId).title ≠ "" ∧
    ((∀ m ∈ ms, methodFailed m = true) →
      fetchYouTubeVideoInfo ms videoId = createFallbackVideoInfo videoId) ∧
    (createFallbackVideoInfo videoId).title = "YouTube Video" ∧
    (createFallbackVideoInfo videoId).thumbnail =
      "https://img.youtube.com/vi/" ++ videoId ++ "/mqdefault.jpg" ∧
    (createFallbackVideoInfo videoId).duration = none ∧
    (createFallbackVideoInfo videoId).views = none ∧
    (createFallbackVideoInfo videoId).likes = none ∧
    (createFallbackVideoInfo videoId).publishedAt = none ∧
    (createFallbackVideoInfo videoId).category = none ∧
    (createFallbackVideoInfo videoId).tags = [] ∧
    (createFallbackVideoInfo videoId).captions = [] :=
  ⟨fetchYouTubeVideoInfo_title_ne ms videoId,
   fetchYouTubeVideoInfo_all_failed ms videoId,
   rfl, rfl, rfl, rfl, rfl, rfl, rfl, rfl, rfl⟩

/-- Witness for C1 at a concrete failing source list and video ID. -/
theorem fetchYouTubeVideoInfo_never_fails_instance :
    fetchYouTubeVideoInfo [Except.error "timeout", Except.ok none] "dQw4w9WgXcQ" =
      createFallbackVideoInfo "dQw4w9WgXcQ" ∧
    (fetchYouTubeVideoInfo [Except.error "timeout", Except.ok none] "dQw4w9WgXcQ").title ≠ "" :=
  ⟨(fetchYouTubeVideoInfo_never_fails [Except.error "timeout", Except.ok none] "dQw4w9WgXcQ"
      ⟨by decide, by decide⟩).2.1 (by decide),
   (fetchYouTubeVideoInfo_never_fails [Except.error "timeout", Except.ok none] "dQw4w9WgXcQ"
      ⟨by decide, by decide⟩).1⟩

/-- C3: the v1.6.0 `node_helper.js` handler rejects an omitted
`seconds` for rewind with a 400 instead of defaulting it to 10, while
the v1.7.0 helper (and the README, which documents "default: 10")
treats `control("rewind")` exactly like `control("rewind", 10)`; the
claim's remaining parts (unrecognized action is a 400, non-positive
seconds is a 400) hold in both versions. -/
theorem apiControlHandler_rewind_divergence :
    (apiControlHandler (ControlBody.mk (some "rewind") none)).resp.status = 400 ∧
    (apiControlHandler (ControlBody.mk (some "rewind") none)).emit = none ∧
    apiControlHandlerV17 (ControlBody.mk (some "rewind") none) =
      apiControlHandlerV17 (ControlBody.mk (some "rewind") (some 10)) ∧
    (apiControlHandlerV17 (ControlBody.mk (some "rewind") none)).resp =
      ControlResp.mk 200 true none (some "rewind") (some 10) ∧
    (apiControlHandler (ControlBody.mk (some "skip") (some 5))).resp.status = 400 ∧
    (apiControlHandler (ControlBody.mk (some "skip") (some 5))).resp.error =
      some "Invalid action" ∧
    (apiControlHandlerV17 (ControlBody.mk (some "skip") (some 5))).resp.error =
      some "Invalid action" ∧
    (apiControlHandler (ControlBody.mk (some "rewind") (some (-3)))).resp.status = 400 ∧
    (apiControlHandlerV17 (ControlBody.mk (some "rewind") (some (-3)))).resp.status = 400 ∧
    (apiControlHandler (ControlBody.mk (some "forward") (some 0))).resp.status = 400 ∧
    (apiControlHandler (ControlBody.mk (some "pause") none)).resp =
      ControlResp.mk 200 true none (some "pause") none := by
  decide

/-- Concrete state with non-default quality sub-fields, for C4. -/
def c4State : PlayState where
  playing := false
  lastUrl := none
  lastVideoId := none
  caption := CaptionState.mk true "fr"
  quality := QualityState.mk "auto" (some "720p") none true

/-- A quality patch providing only `target`, for C4. -/
def c4Body : OptionsBody :=
  OptionsBody.mk none (some (QualityPatch.mk (some "1080p") none none none))

/-- C4 counterexample: a patch carrying only `quality.target` resets
the unspecified `floor` and `lock` sub-fields instead of keeping their
previous values, and a patch that changes no field value still emits an
apply-options command. -/
theorem apiOptionsHandler_not_partial_merge :
    (apiOptionsHandler c4State c4Body).state.quality.lock = false ∧
    c4State.quality.lock = true ∧
    (apiOptionsHandler c4State c4Body).state.quality.floor = none ∧
    c4State.quality.floor = some "720p" ∧
    (apiOptionsHandler c4State c4Body).state.caption = c4State.caption ∧
    (apiOptionsHandler initState
        (OptionsBody.mk (some (CaptionPatch.mk none none)) none)).state = initState ∧
    (apiOptionsHandler initState
        (OptionsBody.mk (some (CaptionPatch.mk none none)) none)).emit ≠ none := by
  decide

/-- C4 (amended): a quality-only patch leaves `caption` untouched and
replaces the whole `quality` record (absent sub-fields reset to their
defaults rather than keeping their previous values); the apply-options
command is emitted exactly when at least one patch object is provided,
even if no field value changed; `updated` mirrors the same condition. -/
theorem apiOptionsHandler_merge_spec (st : PlayState) (qp : QualityPatch) (b : OptionsBody) :
    apiOptionsHandler st (OptionsBody.mk none (some qp)) =
      OptionsOutcome.mk { st with quality := buildQuality qp }
        (some (none, some (buildQuality qp)))
        (OptionsResp.mk 200 true { st with quality := buildQuality qp } true) ∧
    (apiOptionsHandler st b).emit.isSome = (b.caption.isSome || b.quality.isSome) ∧
    (apiOptionsHandler st b).resp.updated = (b.caption.isSome || b.quality.isSome) ∧
    (apiOptionsHandler st b).state.caption =
      (match b.caption with
        | some p => buildCaption p
        | none => st.caption) ∧
    (apiOptionsHandler st b).state.quality =
      (match b.quality with
        | some p => buildQuality p
        | none => st.quality) := by
  obtain ⟨oc, oq⟩ := b
  refine ⟨rfl, ?_, ?_, ?_, ?_⟩ <;> cases oc <;> cases oq <;> rfl

/-- C6 (amended): the two documented durations parse to 3723 and 253
seconds, and the empty string or a string without `PT` yields null;
but a malformed string containing `PT` yields 0, not null, because all
regex groups are optional. -/
theorem parseISO8601Duration_spec :
    parseISO8601Duration "PT1H2M3S" = some 3723 ∧
    parseISO8601Duration "PT4M13S" = some 253 ∧
    parseISO8601Duration "" = none ∧
    parseISO8601Duration "no duration here" = none ∧
    parseISO8601Duration "PT" = some 0 ∧
    parseISO8601Duration "PTgarbage" = some 0 := by
  decide

/-- C6 counterexample: the malformed duration string "PT_malformed"
yields 0, not null. -/
theorem parseISO8601Duration_malformed_not_null :
    parseISO8601Duration "PT_malformed" = some 0 := by
  decide

/-- One relay operation preserves the playing/lastVideoId invariant. -/
lemma relayStep_inv (st : PlayState) (op : RelayOp)
    (h : st.playing = true → st.lastVideoId ≠ none) :
    (relayStep st op).playing = true → (relayStep st op).lastVideoId ≠ none := by
  cases op with
  | play url =>
    cases hp : url.bind parseYouTubeId with
    | none => simpa [relayStep, apiPlayHandler, hp] using h
    | some id => simp [relayStep, apiPlayHandler, hp, playVideo]
  | stop => simp [relayStep, apiStopHandler]
  | control b => exact h
  | options b => simpa [relayStep, apiOptionsHandler] using h
  | embeddedStopped => simp [relayStep]

/-- C7: in every state reachable from the initial state by relay
operations, `playing = true` implies `lastVideoId ≠ null`. -/
theorem relayRun_playing_invariant (ops : List RelayOp) :
    (relayRun ops).playing = true → (relayRun ops).lastVideoId ≠ none := by
  have main : ∀ (l : List RelayOp) (st : PlayState),
      (st.playing = true → st.lastVideoId ≠ none) →
      ((l.foldl relayStep st).playing = true → (l.foldl relayStep st).lastVideoId ≠ none) := by
    intro l
    induction l with
    | nil => exact fun st h => h
    | cons op rest ih => exact fun st h => ih (relayStep st op) (relayStep_inv st op h)
  exact main ops initState (by intro h; simp [initState] at h)

/-- Witness for C7 on a concrete reachable playing state. -/
theorem relayRun_playing_invariant_instance :
    (relayRun [RelayOp.play (some "https://youtu.be/dQw4w9WgXcQ")]).playing = true ∧
    (relayRun [RelayOp.play (some "https://youtu.be/dQw4w9WgXcQ")]).lastVideoId ≠ none :=
  ⟨by decide, relayRun_playing_invariant [RelayOp.play (some "https://youtu.be/dQw4w9WgXcQ")]
    (by decide)⟩

/-- C8: `/api/play` with an unextractable url answers 400 with
`ok:false` and leaves the state entirely unchanged; with an extractable
url it sets `playing`, records url and video ID, emits the
start-playback command and answers `{ok:true, mode:"embedded",
videoId}`. -/
theorem apiPlayHandler_spec (st : PlayState) (url : Option String) :
    (url.bind parseYouTubeId = none →
      apiPlayHandler st url =
        PlayOutcome.mk st none (PlayResp.mk 400 false none none (some "Invalid YouTube URL"))) ∧
    (∀ videoId, url.bind parseYouTubeId = some videoId →
      apiPlayHandler st url =
        PlayOutcome.mk
          { st with playing := true, lastUrl := url, lastVideoId := some videoId }
          (some (videoId, url))
          (PlayResp.mk 200 true (some "embedded") (some videoId) none)) := by
  constructor
  · intro h
    simp [apiPlayHandler, h]
  · intro videoId h
    simp [apiPlayHandler, h, playVideo]

/-- Witness for C8 on both branches at concrete inputs. -/
theorem apiPlayHandler_spec_instance :
    apiPlayHandler initState (some "https://youtu.be/dQw4w9WgXcQ") =
      PlayOutcome.mk
        { initState with
            playing := true
            lastUrl := some "https://youtu.be/dQw4w9WgXcQ"
            lastVideoId := some "dQw4w9WgXcQ" }
        (some ("dQw4w9WgXcQ", some "https://youtu.be/dQw4w9WgXcQ"))
        (PlayResp.mk 200 true (some "embedded") (some "dQw4w9WgXcQ") none) ∧
    apiPlayHandler initState (some "not a url") =
      PlayOutcome.mk initState none
        (PlayResp.mk 400 false none none (some "Invalid YouTube URL")) :=
  ⟨(apiPlayHandler_spec initState (some "https://youtu.be/dQw4w9WgXcQ")).2
      "dQw4w9WgXcQ" (by decide),
   (apiPlayHandler_spec initState (some "not a url")).1 (by decide)⟩

/-- C9: `/api/stop` clears `playing` and leaves every other state field
— `lastVideoId`, `lastUrl`, `caption`, `quality` — unchanged, so the
last played video stays visible to status queries. -/
theorem apiStopHandler_spec (st : PlayState) :
    (apiStopHandler st).state.playing = false ∧
    (apiStopHandler st).state.lastVideoId = st.lastVideoId ∧
    (apiStopHandler st).state.lastUrl = st.lastUrl ∧
    (apiStopHandler st).state.caption = st.caption ∧
    (apiStopHandler st).state.quality = st.quality ∧
    (apiStopHandler st).emitReason = "api" ∧
    (apiStopHandler st).resp = StopResp.mk 200 true "Playback stopped" :=
  ⟨rfl, rfl, rfl, rfl, rfl, rfl, rfl⟩

/-- C10: `/api/options` with neither a caption nor a quality object
leaves the state unchanged, emits nothing, and still answers 200 with
`{ok:true, state, updated:false}`. -/
theorem apiOptionsHandler_noop (st : PlayState) :
    apiOptionsHandler st (OptionsBody.mk none none) =
      OptionsOutcome.mk st none (OptionsResp.mk 200 true st false) :=
  rfl

/-! ### Rate limiter lemmas (C5) -/

/-- First request from an empty map: fresh window, allowed. -/
lemma rateLimitStep_first (t0 : Nat) :
    rateLimitStep 1000 2 [] "c" t0 = ([("c", RLWindow.mk 1 t0)], RLResult.allow) := by
  simp [rateLimitStep, rlCleanup, rlLookup, rlSet]

/-- Second request inside the window: count incremented, allowed. -/
lemma rateLimitStep_second (t0 t1 : Nat) (h : t1 - t0 ≤ 1000) :
    rateLimitStep 1000 2 [("c", RLWindow.mk 1 t0)] "c" t1 =
      ([("c", RLWindow.mk 2 t0)], RLResult.allow) := by
  have h' : ¬(1000 < t1 - t0) := by omega
  simp [rateLimitStep, rlCleanup, rlLookup, rlSet, h']

/-- Third request inside the window: count at max, rejected with the
ceiling of the remaining window time in seconds. -/
lemma rateLimitStep_third (t0 t2 : Nat) (h : t2 - t0 ≤ 1000) :
    rateLimitStep 1000 2 [("c", RLWindow.mk 2 t0)] "c" t2 =
      ([("c", RLWindow.mk 2 t0)], RLResult.reject (ceilDiv1000 (1000 - (t2 - t0)))) := by
  have h' : ¬(1000 < t2 - t0) := by omega
  simp [rateLimitStep, rlCleanup, rlLookup, rlSet, h']

/-- A request after the window has elapsed: the stale entry is swept,
a fresh window starts, allowed. -/
lemma rateLimitStep_fourth (t0 t3 : Nat) (h : 1000 < t3 - t0) :
    rateLimitStep 1000 2 [("c", RLWindow.mk 2 t0)] "c" t3 =
      ([("c", RLWindow.mk 1 t3)], RLResult.allow) := by
  simp [rateLimitStep, rlCleanup, rlLookup, rlSet, h]

/-- Membership after `rlSet`: the new binding or an old entry. -/
lemma rlSet_mem (st : RLState) (id : String) (w : RLWindow) :
    ∀ e ∈ rlSet st id w, e = (id, w) ∨ e ∈ st := by
  induction st with
  | nil => intro e he; simp [rlSet] at he; simp [he]
  | cons x xs ih =>
    intro e he
    by_cases hx : x.1 = id
    · simp [rlSet, hx] at he
      rcases he with he | he
      · exact Or.inl (by simp [he])
      · exact Or.inr (by simp [he])
    · simp [rlSet, hx] at he
      rcases he with he | he
      · exact Or.inr (by simp [he])
      · rcases ih e he with h1 | h1
        · exact Or.inl h1
        · exact Or.inr (by simp [h1])

/-- A successful lookup is a map entry. -/
lemma rlLookup_mem (st : RLState) (id : String) (w : RLWindow)
    (h : rlLookup st id = some w) : (id, w) ∈ st := by
  induction st with
  | nil => simp [rlLookup] at h
  | cons x xs ih =>
    by_cases hx : x.1 = id
    · rw [rlLookup, if_pos hx] at h
      have : x = (id, w) := by
        obtain ⟨x1, x2⟩ := x
        simp at hx
        simp at h
        simp [hx, h]
      simp [this]
    · rw [rlLookup, if_neg hx] at h
      exact List.mem_cons_of_mem x (ih h)

/-- One limiter step keeps every stored count at or below `max`. -/
lemma rateLimitStep_count_le (windowMs max : Nat) (st : RLState) (id : String) (now : Nat)
    (H : ∀ e ∈ st, e.2.count ≤ max) :
    ∀ e ∈ (rateLimitStep windowMs max st id now).1, e.2.count ≤ max := by
  intro e he
  have H1 : ∀ e ∈ rlCleanup windowMs now st, e.2.count ≤ max := by
    intro x hx
    exact H x (List.mem_of_mem_filter hx)
  simp only [rateLimitStep] at he
  rcases hL : rlLookup (rlCleanup windowMs now st) id with _ | w
  all_goals rw [hL] at he
  · -- no entry: d is the fresh window with count 0
    split at he
    · rcases rlSet_mem _ _ _ e he with rfl | hmem
      · simp
      · exact H1 e hmem
    · next hc =>
      rcases rlSet_mem _ _ _ e he with rfl | hmem
      · simpa using by omega
      · exact H1 e hmem
  · -- an entry w exists; d is w or a fresh window depending on age
    have hw : w.count ≤ max := H1 (id, w) (rlLookup_mem _ _ _ hL)
    split at he
    · -- rejected: the stored window is d itself
      rcases rlSet_mem _ _ _ e he with rfl | hmem
      · by_cases ht : windowMs < now - w.resetTime
        · simp [ht]
        · simp [ht]; exact hw
      · exact H1 e hmem
    · next hc =>
      -- allowed: count of d incremented, and d.count < max
      rcases rlSet_mem _ _ _ e he with rfl | hmem
      · by_cases ht : windowMs < now - w.resetTime
        · simp [ht] at hc ⊢
          omega
        · simp [ht] at hc ⊢
          omega
      · exact H1 e hmem

/-- C5: with `max = 2, windowMs = 1000`, three requests from one client
within 1000 ms of the first are Allow, Allow, Reject, the rejection
carrying `ceil((windowMs - elapsed)/1000)` seconds, and a fourth
request more than 1000 ms after the window start is allowed again; and
for every request trace, no stored window count ever exceeds the
configured max. -/
theorem rateLimit_admission_spec (t0 t1 t2 t3 : Nat)
    (h1 : t1 - t0 ≤ 1000) (h2 : t2 - t0 ≤ 1000) (h3 : 1000 < t3 - t0) :
    (rateLimitRun 1000 2 [("c", t0), ("c", t1), ("c", t2), ("c", t3)]).2 =
      [RLResult.allow, RLResult.allow,
        RLResult.reject (ceilDiv1000 (1000 - (t2 - t0))), RLResult.allow] ∧
    ∀ (windowMs max : Nat) (reqs : List (String × Nat)),
      ∀ e ∈ (rateLimitRun windowMs max reqs).1, e.2.count ≤ max := by
  constructor
  · simp only [rateLimitRun, List.foldl, rateLimitStep_first t0,
      rateLimitStep_second t0 t1 h1, rateLimitStep_third t0 t2 h2,
      rateLimitStep_fourth t0 t3 h3]
    simp
  · intro windowMs max reqs
    have main : ∀ (l : List (String × Nat)) (st : RLState) (acc : List RLResult),
        (∀ e ∈ st, e.2.count ≤ max) →
        ∀ e ∈ (l.foldl
            (fun acc r =>
              let step := rateLimitStep windowMs max acc.1 r.1 r.2
              (step.1, acc.2 ++ [step.2])) (st, acc)).1,
          e.2.count ≤ max := by
      intro l
      induction l with
      | nil => intro st acc H e he; exact H e he
      | cons r rest ih =>
        intro st acc H e he
        exact ih _ _ (rateLimitStep_count_le windowMs max st r.1 r.2 H) e he
    exact main reqs [] [] (by simp)

/-- Witness for C5 at concrete request times 0, 400, 900, 1001 ms. -/
theorem rateLimit_admission_spec_instance :
    (rateLimitRun 1000 2 [("c", 0), ("c", 400), ("c", 900), ("c", 1001)]).2 =
      [RLResult.allow, RLResult.allow, RLResult.reject 1, RLResult.allow] := by
  rw [(rateLimit_admission_spec 0 400 900 1001 (by decide) (by decide) (by decide)).1]
  decide

/-! ### Video-ID extractor lemmas (C2) -/

lemma dropWhile_eq_self_of (p : Char → Bool) (s : List Char)
    (h : ∀ c ∈ s, p c = false) : s.dropWhile p = s := by
  cases s with
  | nil => rfl
  | cons c cs => simp [List.dropWhile_cons, h c (by simp)]

lemma jsTrim_id (s : List Char) (h : ∀ c ∈ s, isSpaceChar c = false) : jsTrim s = s := by
  unfold jsTrim
  rw [dropWhile_eq_self_of _ _ h]
  rw [dropWhile_eq_self_of _ _ (fun c hc => h c (List.mem_reverse.mp hc))]
  exact List.reverse_reverse s

lemma ciEq_refl (c : Char) : ciEq c c = true := by
  simp [ciEq]

lemma stripMarkerCI_self_append (m t : List Char) : stripMarkerCI m (m ++ t) = some t := by
  induction m with
  | nil => rfl
  | cons a ms ih => simp [stripMarkerCI, ciEq_refl, ih]

/-- A mismatch inside the window kills the marker for any extension. -/
lemma mismatchWithin_strip (m w z : List Char) (h : mismatchWithin m w = true) :
    stripMarkerCI m (w ++ z) = none := by
  induction w generalizing m with
  | nil => simp [mismatchWithin] at h
  | cons c cs ih =>
    cases m with
    | nil => simp [mismatchWithin] at h
    | cons a ms =>
      by_cases hce : ciEq a c = true
      · simp only [mismatchWithin, hce, if_true] at h
        simp only [List.cons_append, stripMarkerCI, hce, if_true]
        exact ih ms h
      · have hf : ciEq a c = false := by simpa using hce
        simp [stripMarkerCI, hf]

/-- The scan finds the marker exactly where every earlier start
position mismatches and a valid capture follows the marker. -/
lemma scanMarker_found (marker pre t r : List Char) (hm : marker ≠ [])
    (h1 : allSuffixMismatch marker pre = true) (h2 : takeId11 t = some r) :
    scanMarker marker (pre ++ (marker ++ t)) = some r := by
  induction pre with
  | nil =>
    cases marker with
    | nil => exact absurd rfl hm
    | cons a ms =>
      have hs := stripMarkerCI_self_append (a :: ms) t
      simp only [List.cons_append] at hs
      simp [scanMarker, hs, h2]
  | cons c cs ih =>
    have h1' : mismatchWithin marker (c :: cs) = true ∧ allSuffixMismatch marker cs = true := by
      simpa [allSuffixMismatch] using h1
    have hstrip : stripMarkerCI marker (c :: (cs ++ (marker ++ t))) = none := by
      simpa using mismatchWithin_strip marker (c :: cs) (marker ++ t) h1'.1
    simp only [List.cons_append, List.append_eq, scanMarker, hstrip, Option.none_bind]
    exact ih h1'.2

/-- The scan finds nothing when every start position inside the prefix
mismatches and the suffix alone admits no match either. -/
lemma scanMarker_none_append (marker pre t : List Char)
    (h1 : allSuffixMismatch marker pre = true) (h2 : scanMarker marker t = none) :
    scanMarker marker (pre ++ t) = none := by
  induction pre with
  | nil => simpa using h2
  | cons c cs ih =>
    have h1' : mismatchWithin marker (c :: cs) = true ∧ allSuffixMismatch marker cs = true := by
      simpa [allSuffixMismatch] using h1
    have hstrip : stripMarkerCI marker (c :: (cs ++ t)) = none := by
      simpa using mismatchWithin_strip marker (c :: cs) t h1'.1
    simp only [List.cons_append, List.append_eq, scanMarker, hstrip, Option.none_bind]
    exact ih h1'.2

/-- Lower-casing an identifier character never yields the dot's code
point 46. -/
lemma toLowerN_id_ne_46 (c : Char) (hc : isIdChar c = true) : toLowerN c.toNat ≠ 46 := by
  simp only [isIdChar, Bool.or_eq_true, Bool.and_eq_true, decide_eq_true_eq] at hc
  unfold toLowerN
  split
  · next h =>
    simp only [Bool.and_eq_true, decide_eq_true_eq] at h
    omega
  · omega

/-- No identifier character is case-insensitively equal to a dot. -/
lemma ciEq_dot_eq_false (c : Char) (hc : isIdChar c = true) : ciEq '.' c = false := by
  have h46 : toLowerN (Char.toNat '.') = 46 := by decide
  have hn := toLowerN_id_ne_46 c hc
  simp only [ciEq, h46, beq_eq_false_iff_ne, ne_eq]
  exact fun h => hn h.symm

/-- A marker containing a dot never matches inside a string made of
identifier characters only. -/
lemma stripMarkerCI_dot_none (marker : List Char) (hdot : '.' ∈ marker) :
    ∀ s : List Char, (∀ c ∈ s, isIdChar c = true) → stripMarkerCI marker s = none := by
  induction marker with
  | nil => simp at hdot
  | cons m ms ih =>
    intro s hs
    cases s with
    | nil => rfl
    | cons c cs =>
      by_cases hm : m = '.'
      · subst hm
        have hf : ciEq '.' c = false := ciEq_dot_eq_false c (hs c (by simp))
        simp [stripMarkerCI, hf]
      · have hdot' : '.' ∈ ms := by
          rcases List.mem_cons.mp hdot with h | h
          · exact absurd h.symm hm
          · exact h
        by_cases hce : ciEq m c = true
        · simp only [stripMarkerCI, hce, if_true]
          exact ih hdot' cs (fun x hx => hs x (by simp [hx]))
        · have hf : ciEq m c = false := by simpa using hce
          simp [stripMarkerCI, hf]

lemma scanMarker_dot_none (marker : List Char) (hdot : '.' ∈ marker) :
    ∀ s : List Char, (∀ c ∈ s, isIdChar c = true) → scanMarker marker s = none := by
  intro s
  induction s with
  | nil => intro _; rfl
  | cons c cs ih =>
    intro hs
    have hstrip := stripMarkerCI_dot_none marker hdot (c :: cs) hs
    simp only [scanMarker, hstrip, Option.none_bind]
    exact ih (fun x hx => hs x (by simp [hx]))

lemma all_id_mem {t : List Char} (h : t.all isIdChar = true) :
    ∀ c ∈ t, isIdChar c = true :=
  fun c hc => List.all_eq_true.mp h c hc

lemma takeId11_full (t : List Char) (h1 : t.length = 11) (h2 : t.all isIdChar = true) :
    takeId11 t = some t := by
  have ht : t.take 11 = t := List.take_of_length_le (by omega)
  simp [takeId11, ht, h1, h2]

lemma checkId_valid (t : List Char) (h1 : t.length = 11) (h2 : t.all isIdChar = true) :
    checkId (some t) = some t := by
  simp [checkId, h1, h2]

lemma isSpaceChar_of_id (c : Char) (h : isIdChar c = true) : isSpaceChar c = false := by
  by_contra hs
  have hs' : isSpaceChar c = true := by simpa using hs
  simp only [isSpaceChar, Bool.or_eq_true, decide_eq_true_eq] at hs'
  rcases hs' with ((rfl | rfl) | rfl) | rfl <;> exact absurd h (by decide)

lemma noSpace_append {pre t : List Char} (hp : ∀ c ∈ pre, isSpaceChar c = false)
    (ht : ∀ c ∈ t, isSpaceChar c = false) : ∀ c ∈ pre ++ t, isSpaceChar c = false := by
  intro c hc
  rcases List.mem_append.mp hc with h | h
  · exact hp c h
  · exact ht c h

lemma jsTrim_concrete_append (pre t : List Char)
    (hp : ∀ c ∈ pre, isSpaceChar c = false) (h2 : t.all isIdChar = true) :
    jsTrim (pre ++ t) = pre ++ t :=
  jsTrim_id _ (noSpace_append hp (fun c hc => isSpaceChar_of_id c (all_id_mem h2 c hc)))

/-- A `watch?v=` URL with a valid token parses to that token. -/
lemma parseCore_watch (t : List Char) (h1 : t.length = 11) (h2 : t.all isIdChar = true) :
    parseCore ("https://www.youtube.com/watch?v=".toList ++ t) = some t := by
  have hne : "https://www.youtube.com/watch?v=".toList ++ t ≠ [] := by simp
  have htrim := jsTrim_concrete_append "https://www.youtube.com/watch?v=".toList t
    (by decide) h2
  have hsplit : "https://www.youtube.com/watch?v=".toList =
      "https://www.".toList ++ watchMarker := by decide
  have hscan : scanMarker watchMarker ("https://www.youtube.com/watch?v=".toList ++ t) =
      some t := by
    rw [hsplit, List.append_assoc]
    exact scanMarker_found watchMarker _ t t (by decide) (by decide) (takeId11_full t h1 h2)
  unfold parseCore
  rw [if_neg hne]
  simp only [htrim, hscan, checkId_valid t h1 h2]

lemma checkId_none : checkId none = none := rfl

/-- A marker whose scan fails on the concrete prefix and whose literal
contains a dot also fails on the prefix followed by identifier
characters. -/
lemma scanMarker_none_pre (marker pre tL : List Char)
    (h1 : allSuffixMismatch marker pre = true) (hdot : '.' ∈ marker)
    (h2 : tL.all isIdChar = true) : scanMarker marker (pre ++ tL) = none :=
  scanMarker_none_append marker pre tL h1
    (scanMarker_dot_none marker hdot tL (all_id_mem h2))

/-- An `/embed/` URL with a valid token parses to that token. -/
lemma parseCore_embed (t : List Char) (h1 : t.length = 11) (h2 : t.all isIdChar = true) :
    parseCore ("https://www.youtube.com/embed/".toList ++ t) = some t := by
  have hne : "https://www.youtube.com/embed/".toList ++ t ≠ [] := by simp
  have htrim := jsTrim_concrete_append "https://www.youtube.com/embed/".toList t
    (by decide) h2
  have hs1 : scanMarker watchMarker ("https://www.youtube.com/embed/".toList ++ t) = none :=
    scanMarker_none_pre watchMarker _ t (by decide) (by decide) h2
  have hsplit : "https://www.youtube.com/embed/".toList =
      "https://www.".toList ++ embedMarker := by decide
  have hs2 : scanMarker embedMarker ("https://www.youtube.com/embed/".toList ++ t) =
      some t := by
    rw [hsplit, List.append_assoc]
    exact scanMarker_found embedMarker _ t t (by decide) (by decide) (takeId11_full t h1 h2)
  unfold parseCore
  rw [if_neg hne]
  simp only [htrim, hs1, checkId_none, hs2, checkId_valid t h1 h2]

/-- A `/v/` URL with a valid token parses to that token. -/
lemma parseCore_v (t : List Char) (h1 : t.length = 11) (h2 : t.all isIdChar = true) :
    parseCore ("https://www.youtube.com/v/".toList ++ t) = some t := by
  have hne : "https://www.youtube.com/v/".toList ++ t ≠ [] := by simp
  have htrim := jsTrim_concrete_append "https://www.youtube.com/v/".toList t
    (by decide) h2
  have hs1 : scanMarker watchMarker ("https://www.youtube.com/v/".toList ++ t) = none :=
    scanMarker_none_pre watchMarker _ t (by decide) (by decide) h2
  have hs2 : scanMarker embedMarker ("https://www.youtube.com/v/".toList ++ t) = none :=
    scanMarker_none_pre embedMarker _ t (by decide) (by decide) h2
  have hsplit : "https://www.youtube.com/v/".toList =
      "https://www.".toList ++ vMarker := by decide
  have hs3 : scanMarker vMarker ("https://www.youtube.com/v/".toList ++ t) = some t := by
    rw [hsplit, List.append_assoc]
    exact scanMarker_found vMarker _ t t (by decide) (by decide) (takeId11_full t h1 h2)
  unfold parseCore
  rw [if_neg hne]
  simp only [htrim, hs1, hs2, checkId_none, hs3, checkId_valid t h1 h2]

/-- A `/shorts/` URL with a valid token parses to that token. -/
lemma parseCore_shorts (t : List Char) (h1 : t.length = 11) (h2 : t.all isIdChar = true) :
    parseCore ("https://www.youtube.com/shorts/".toList ++ t) = some t := by
  have hne : "https://www.youtube.com/shorts/".toList ++ t ≠ [] := by simp
  have htrim := jsTrim_concrete_append "https://www.youtube.com/shorts/".toList t
    (by decide) h2
  have hs1 : scanMarker watchMarker ("https://www.youtube.com/shorts/".toList ++ t) = none :=
    scanMarker_none_pre watchMarker _ t (by decide) (by decide) h2
  have hs2 : scanMarker embedMarker ("https://www.youtube.com/shorts/".toList ++ t) = none :=
    scanMarker_none_pre embedMarker _ t (by decide) (by decide) h2
  have hs3 : scanMarker vMarker ("https://www.youtube.com/shorts/".toList ++ t) = none :=
    scanMarker_none_pre vMarker _ t (by decide) (by decide) h2
  have hsplit : "https://www.youtube.com/shorts/".toList =
      "https://www.".toList ++ shortsMarker := by decide
  have hs4 : scanMarker shortsMarker ("https://www.youtube.com/shorts/".toList ++ t) =
      some t := by
    rw [hsplit, List.append_assoc]
    exact scanMarker_found shortsMarker _ t t (by decide) (by decide) (takeId11_full t h1 h2)
  unfold parseCore
  rw [if_neg hne]
  simp only [htrim, hs1, hs2, hs3, checkId_none, hs4, checkId_valid t h1 h2]

/-- A `youtu.be/` URL with a valid token parses to that token. -/
lemma parseCore_be (t : List Char) (h1 : t.length = 11) (h2 : t.all isIdChar = true) :
    parseCore ("https://youtu.be/".toList ++ t) = some t := by
  have hne : "https://youtu.be/".toList ++ t ≠ [] := by simp
  have htrim := jsTrim_concrete_append "https://youtu.be/".toList t (by decide) h2
  have hs1 : scanMarker watchMarker ("https://youtu.be/".toList ++ t) = none :=
    scanMarker_none_pre watchMarker _ t (by decide) (by decide) h2
  have hs2 : scanMarker embedMarker ("https://youtu.be/".toList ++ t) = none :=
    scanMarker_none_pre embedMarker _ t (by decide) (by decide) h2
  have hs3 : scanMarker vMarker ("https://youtu.be/".toList ++ t) = none :=
    scanMarker_none_pre vMarker _ t (by decide) (by decide) h2
  have hs4 : scanMarker shortsMarker ("https://youtu.be/".toList ++ t) = none :=
    scanMarker_none_pre shortsMarker _ t (by decide) (by decide) h2
  have hsplit : "https://youtu.be/".toList = "https://".toList ++ beMarker := by decide
  have hs5 : scanMarker beMarker ("https://youtu.be/".toList ++ t) = some t := by
    rw [hsplit, List.append_assoc]
    exact scanMarker_found beMarker _ t t (by decide) (by decide) (takeId11_full t h1 h2)
  unfold parseCore
  rw [if_neg hne]
  simp only [htrim, hs1, hs2, hs3, hs4, checkId_none, hs5, checkId_valid t h1 h2]

/-- A bare string of identifier characters parses iff it has exactly
eleven characters. -/
lemma parseCore_bare (t : List Char) (h2 : t.all isIdChar = true) :
    parseCore t = if t.length = 11 then some t else none := by
  by_cases hnil : t = []
  · subst hnil
    simp [parseCore]
  · have hid := all_id_mem h2
    have htrim : jsTrim t = t :=
      jsTrim_id t (fun c hc => isSpaceChar_of_id c (hid c hc))
    have hs1 : scanMarker watchMarker t = none :=
      scanMarker_dot_none watchMarker (by decide) t hid
    have hs2 : scanMarker embedMarker t = none :=
      scanMarker_dot_none embedMarker (by decide) t hid
    have hs3 : scanMarker vMarker t = none :=
      scanMarker_dot_none vMarker (by decide) t hid
    have hs4 : scanMarker shortsMarker t = none :=
      scanMarker_dot_none shortsMarker (by decide) t hid
    have hs5 : scanMarker beMarker t = none :=
      scanMarker_dot_none beMarker (by decide) t hid
    unfold parseCore
    rw [if_neg hnil]
    by_cases hlen : t.length = 11
    · have hbare : bareId t = some t := by simp [bareId, hlen, h2]
      rw [if_pos hlen]
      simp only [htrim, hs1, hs2, hs3, hs4, hs5, checkId_none, hbare,
        checkId_valid t hlen h2]
    · have hbare : bareId t = none := by simp [bareId, hlen]
      rw [if_neg hlen]
      simp only [htrim, hs1, hs2, hs3, hs4, hs5, checkId_none, hbare]

/-- C2 (amended): every one of the six recognized URL shapes carrying a
valid 11-character token extracts exactly that token, and a bare token
of identifier characters is accepted iff it is exactly 11 characters;
empty input, unrecognizable strings and short tokens give `None` — but
a longer run of identifier characters after a URL marker is NOT
rejected: its first 11 characters are captured and accepted. -/
theorem parseYouTubeId_extract_spec :
    (∀ t : String, t.toList.length = 11 → t.toList.all isIdChar = true →
      parseYouTubeId ("https://www.youtube.com/watch?v=" ++ t) = some t ∧
      parseYouTubeId ("https://www.youtube.com/embed/" ++ t) = some t ∧
      parseYouTubeId ("https://www.youtube.com/v/" ++ t) = some t ∧
      parseYouTubeId ("https://www.youtube.com/shorts/" ++ t) = some t ∧
      parseYouTubeId ("https://youtu.be/" ++ t) = some t) ∧
    (∀ t : String, t.toList.all isIdChar = true →
      parseYouTubeId t = if t.toList.length = 11 then some t else none) ∧
    parseYouTubeId "" = none ∧
    parseYouTubeId "not a url" = none ∧
    parseYouTubeId "https://youtube.com/watch?v=short" = none ∧
    parseYouTubeId "https://www.youtube.com/watch?v=abcdefghijklmnop" = some "abcdefghijk" := by
  refine ⟨?_, ?_, by decide, by decide, by decide, by decide⟩
  · intro t h1 h2
    refine ⟨?_, ?_, ?_, ?_, ?_⟩
    · show (parseCore ("https://www.youtube.com/watch?v=".toList ++ t.toList)).map
        (fun l => String.mk l) = some t
      rw [parseCore_watch t.toList h1 h2]
      rfl
    · show (parseCore ("https://www.youtube.com/embed/".toList ++ t.toList)).map
        (fun l => String.mk l) = some t
      rw [parseCore_embed t.toList h1 h2]
      rfl
    · show (parseCore ("https://www.youtube.com/v/".toList ++ t.toList)).map
        (fun l => String.mk l) = some t
      rw [parseCore_v t.toList h1 h2]
      rfl
    · show (parseCore ("https://www.youtube.com/shorts/".toList ++ t.toList)).map
        (fun l => String.mk l) = some t
      rw [parseCore_shorts t.toList h1 h2]
      rfl
    · show (parseCore ("https://youtu.be/".toList ++ t.toList)).map
        (fun l => String.mk l) = some t
      rw [parseCore_be t.toList h1 h2]
      rfl
  · intro t h2
    show (parseCore t.toList).map (fun l => String.mk l) =
      if t.toList.length = 11 then some t else none
    rw [parseCore_bare t.toList h2]
    by_cases hlen : t.toList.length = 11
    · rw [if_pos hlen, if_pos hlen]
      rfl
    · rw [if_neg hlen, if_neg hlen]
      rfl

/-- Witness for C2 at the spec's own examples. -/
theorem parseYouTubeId_extract_spec_instance :
    parseYouTubeId "https://youtu.be/dQw4w9WgXcQ" = some "dQw4w9WgXcQ" ∧
    parseYouTubeId "dQw4w9WgXcQ" = some "dQw4w9WgXcQ" := by
  constructor
  · exact (parseYouTubeId_extract_spec.1 "dQw4w9WgXcQ" (by decide) (by decide)).2.2.2.2
  · rw [parseYouTubeId_extract_spec.2.1 "dQw4w9WgXcQ" (by decide)]
    decide

/-- C2 counterexample: a `watch?v=` URL carrying a 13-character run of
identifier characters is not rejected; the extractor truncates it to
its first 11 characters and accepts the result, where the claim
demands `None`. -/
theorem parseYouTubeId_truncates_long_token :
    parseYouTubeId "https://www.youtube.com/watch?v=dQw4w9WgXcQAB" = some "dQw4w9WgXcQ" ∧
    "dQw4w9WgXcQAB".toList.length = 13 ∧
    "dQw4w9WgXcQAB".toList.all isIdChar = true := by
  decide

end STM
